import Mathlib

/-!
Verification of the frame presentation pipeline of a Vulkan triangle
renderer (src/src/uniformbuffer.rs).  The Rust functions relevant to the
claims are shallowly embedded as executable Lean definitions: machine
integers become Nat (every value involved fits in the machine width, and
where Rust could panic the embedding returns Option/Except), backend
calls (the Vulkan driver) become explicit environment records supplying
what the calls would return, and the stateful frame loop becomes
explicit state passing producing a trace of backend actions.
-/

namespace Vk

/-- u32::MAX, the sentinel for an undefined current extent. -/
def u32MAX : Nat := 4294967295

/-- vk::Extent2D (width and height are u32 values). -/
structure Extent2D where
  width : Nat
  height : Nat
  deriving DecidableEq, Repr

/-- vk::SurfaceCapabilitiesKHR, the fields read by the program. -/
structure SurfaceCapabilitiesKHR where
  min_image_count : Nat
  max_image_count : Nat
  current_extent : Extent2D
  min_image_extent : Extent2D
  max_image_extent : Extent2D
  current_transform : Nat
  deriving DecidableEq, Repr

/-- vk::SurfaceFormatKHR: a format code paired with a colorspace code. -/
structure SurfaceFormatKHR where
  format : Nat
  color_space : Nat
  deriving DecidableEq, Repr

/-- The ash constant vk::Format::B8G8R8A8_SRGB. -/
def B8G8R8A8_SRGB : Nat := 50

/-- The ash constant vk::ColorSpaceKHR::SRGB_NONLINEAR. -/
def SRGB_NONLINEAR : Nat := 0

/-- The ash constant vk::PresentModeKHR::MAILBOX. -/
def MAILBOX : Nat := 1

/-- The ash constant vk::PresentModeKHR::FIFO. -/
def FIFO : Nat := 2

/-- const MAX_FRAMES_IN_FLIGHT: usize = 2. -/
def MAX_FRAMES_IN_FLIGHT : Nat := 2

/-- vk::SwapchainSupportDetails: the snapshot queried from the surface. -/
structure SwapchainSupportDetails where
  capabilities : SurfaceCapabilitiesKHR
  formats : List SurfaceFormatKHR
  present_modes : List Nat
  deriving DecidableEq, Repr

/-- The loop body test in choose_swap_surface_format: 8-bit BGRA sRGB
format with sRGB-nonlinear colorspace. -/
def is_preferred_format (f : SurfaceFormatKHR) : Bool :=
  f.format == B8G8R8A8_SRGB && f.color_space == SRGB_NONLINEAR

/-- choose_swap_surface_format: scans the list in order and returns the
first entry whose format is B8G8R8A8_SRGB with SRGB_NONLINEAR colorspace;
falls back to formats[0].  Indexing an empty vector panics in Rust, so
the embedding returns none there. -/
def choose_swap_surface_format (formats : List SurfaceFormatKHR) :
    Option SurfaceFormatKHR :=
  match formats.find? is_preferred_format with
  | some f => some f
  | none => formats.head?

/-- choose_swap_present_mode: returns MAILBOX when present in the list,
otherwise FIFO. -/
def choose_swap_present_mode (present_modes : List Nat) : Nat :=
  match present_modes.find? (fun m => m == MAILBOX) with
  | some m => m
  | none => FIFO

/-- Rust u32::clamp(lo, hi): panics when lo > hi (embedded as none),
otherwise moves the value into [lo, hi]. -/
def rust_clamp (v lo hi : Nat) : Option Nat :=
  if lo > hi then none
  else some (if v < lo then lo else if v > hi then hi else v)

/-- choose_swap_extent: when current_extent.width is not the u32::MAX
sentinel the surface extent is used verbatim; otherwise the window inner
size is clamped per dimension to [min_image_extent, max_image_extent]. -/
def choose_swap_extent (window_size : Extent2D)
    (capabilities : SurfaceCapabilitiesKHR) : Option Extent2D :=
  if capabilities.current_extent.width ≠ u32MAX then
    some capabilities.current_extent
  else
    match rust_clamp window_size.width capabilities.min_image_extent.width
            capabilities.max_image_extent.width,
          rust_clamp window_size.height capabilities.min_image_extent.height
            capabilities.max_image_extent.height with
    | some w, some h => some ⟨w, h⟩
    | _, _ => none

/-- The image-count expression in create_swap_chain (lines 577-586): the
count is max_image_count only when max_image_count > 0 and
min_image_count exceeds it, else min_image_count + 1. -/
def image_count (capabilities : SurfaceCapabilitiesKHR) : Nat :=
  if capabilities.max_image_count > 0
      && capabilities.min_image_count > capabilities.max_image_count
  then capabilities.max_image_count
  else capabilities.min_image_count + 1

/-- The image count as the spec words it: min_image_count + 1, clamped
down to max_image_count whenever max_image_count is nonzero. -/
def spec_image_count (capabilities : SurfaceCapabilitiesKHR) : Nat :=
  if capabilities.max_image_count > 0
  then min (capabilities.min_image_count + 1) capabilities.max_image_count
  else capabilities.min_image_count + 1

/-- vk::ImageView as create_image_views builds it: one view per image,
carrying the image and the swapchain image format (the remaining create
info fields are fixed constants). -/
structure ImageView where
  image : Nat
  format : Nat
  deriving DecidableEq, Repr

/-- vk::Framebuffer as create_framebuffers builds it: one framebuffer per
image view, carrying the view, the swapchain extent and the render pass. -/
structure Framebuffer where
  attachment : ImageView
  width : Nat
  height : Nat
  render_pass : Nat
  deriving DecidableEq, Repr

/-- create_image_views: builds one image view per swapchain image, in
order, from the image handle and the swapchain image format. -/
def create_image_views (swap_chain_images : List Nat)
    (swap_chain_image_format : Nat) : List ImageView :=
  swap_chain_images.map (fun image => ⟨image, swap_chain_image_format⟩)

/-- create_framebuffers: builds one framebuffer per image view, in order,
bound to the render pass and sized to the swapchain extent. -/
def create_framebuffers (swap_chain_image_views : List ImageView)
    (swap_chain_extent : Extent2D) (render_pass : Nat) : List Framebuffer :=
  swap_chain_image_views.map
    (fun view => ⟨view, swap_chain_extent.width, swap_chain_extent.height, render_pass⟩)

/-- The environment of one create_swap_chain call: what the queried
backend calls return inside it — the fresh SwapchainSupportDetails
snapshot, the window inner size, the two queue family indices, and the
swapchain handle plus image list the driver hands back. -/
structure SwapChainEnv where
  support : SwapchainSupportDetails
  window_size : Extent2D
  graphics_queue_index : Option Nat
  present_queue_index : Option Nat
  swap_chain_handle : Nat
  swap_chain_images : List Nat
  deriving DecidableEq, Repr

/-- create_swap_chain: queries support details, chooses format, present
mode, image count and extent, unwraps the queue family indices, creates
the swapchain and fetches its images.  Returns the tuple
(swap_chain, swap_chain_images, format, extent); none embeds a panic of
one of the unwraps or of the choose functions. -/
def create_swap_chain (env : SwapChainEnv) :
    Option (Nat × List Nat × Nat × Extent2D) :=
  match choose_swap_surface_format env.support.formats with
  | none => none
  | some format =>
    let _present_mode := choose_swap_present_mode env.support.present_modes
    let _count := image_count env.support.capabilities
    match choose_swap_extent env.window_size env.support.capabilities with
    | none => none
    | some extent =>
      match env.graphics_queue_index, env.present_queue_index with
      | some _, some _ =>
        some (env.swap_chain_handle, env.swap_chain_images, format.format, extent)
      | _, _ => none

/-- The swapchain-derived slice of the VulkanDetails state (struct fields
at lines 166-201): exactly the fields recreate_swap_chain reassigns,
plus the render pass it reads.  The struct carries no other
swapchain-related field. -/
structure RenderState where
  swap_chain : Nat
  swap_chain_images : List Nat
  swap_chain_image_format : Nat
  swap_chain_extent : Extent2D
  swap_chain_image_views : List ImageView
  render_pass : Nat
  swap_chain_framebuffers : List Framebuffer
  deriving DecidableEq, Repr

/-- recreate_swap_chain: waits for device idle, destroys the old
framebuffers, views and swapchain, then rebuilds swapchain, image views
and framebuffers from a fresh environment query and stores all of them
before returning.  none embeds a panic inside create_swap_chain. -/
def recreate_swap_chain (s : RenderState) (env : SwapChainEnv) :
    Option RenderState :=
  match create_swap_chain env with
  | none => none
  | some (sc, images, format, extent) =>
    let views := create_image_views images format
    let framebuffers := create_framebuffers views extent s.render_pass
    some { s with
      swap_chain := sc
      swap_chain_images := images
      swap_chain_image_format := format
      swap_chain_extent := extent
      swap_chain_image_views := views
      swap_chain_framebuffers := framebuffers }

/-- Outcome of acquire_next_image as draw_frame matches on it. -/
inductive AcquireResult where
  | success (image_index : Nat)
  | outOfDate
  | otherError
  deriving DecidableEq, Repr

/-- Outcome of queue_present as draw_frame matches on it: ok carries the
suboptimal flag ash returns as a Bool. -/
inductive PresentResult where
  | ok (suboptimal : Bool)
  | outOfDate
  | otherError
  deriving DecidableEq, Repr

/-- One backend-visible action of a draw_frame cycle, in program order. -/
inductive Action where
  | waitFence (slot : Nat)
  | acquire (slot : Nat)
  | resetFence (slot : Nat)
  | resetCommandBuffer (slot : Nat)
  | recordCommandBuffer (slot image_index : Nat)
  | updateUniformBuffer (slot : Nat)
  | submit (slot : Nat)
  | present (image_index : Nat)
  | recreateSwapChain
  | panic
  deriving DecidableEq, Repr

/-- The frame-loop slice of the VulkanDetails state that draw_frame
mutates: the frame counter and the resize flag. -/
structure FrameState where
  current_frame : Nat
  framebuffer_resized : Bool
  deriving DecidableEq, Repr

/-- draw_frame: waits on the slot fence, acquires (early return with
recreation on out-of-date, panic otherwise on failure), then resets the
fence and command buffer, records, updates the uniform buffer, submits,
presents (recreating on out-of-date / suboptimal / pending resize,
panicking on other failure), and finally advances the frame counter
modulo MAX_FRAMES_IN_FLIGHT.  Returns the action trace and the
post-state; a trace ending in panic never runs further. -/
def draw_frame (s : FrameState) (acq : AcquireResult) (pres : PresentResult) :
    List Action × FrameState :=
  let cf := s.current_frame
  let head := [Action.waitFence cf, Action.acquire cf]
  match acq with
  | .outOfDate => (head ++ [Action.recreateSwapChain], s)
  | .otherError => (head ++ [Action.panic], s)
  | .success image_index =>
    let body := [Action.resetFence cf, Action.resetCommandBuffer cf,
      Action.recordCommandBuffer cf image_index, Action.updateUniformBuffer cf,
      Action.submit cf, Action.present image_index]
    match pres with
    | .ok suboptimal =>
      if suboptimal || s.framebuffer_resized then
        (head ++ body ++ [Action.recreateSwapChain],
         ⟨(cf + 1) % MAX_FRAMES_IN_FLIGHT, false⟩)
      else
        (head ++ body, ⟨(cf + 1) % MAX_FRAMES_IN_FLIGHT, s.framebuffer_resized⟩)
    | .outOfDate =>
      (head ++ body ++ [Action.recreateSwapChain],
       ⟨(cf + 1) % MAX_FRAMES_IN_FLIGHT, s.framebuffer_resized⟩)
    | .otherError => (head ++ body ++ [Action.panic], s)

/-- A resource destroyed during cleanup; indices distinguish the items of
the per-image and per-frame loops. -/
inductive Resource where
  | framebuffer (i : Nat)
  | imageView (i : Nat)
  | swapchain
  | uniformBuffer (i : Nat)
  | uniformMemory (i : Nat)
  | descriptorPool
  | descriptorSetLayout
  | indexBuffer
  | indexMemory
  | vertexBuffer
  | vertexMemory
  | pipeline
  | pipelineLayout
  | renderPass
  | imageAvailableSemaphore (i : Nat)
  | renderFinishedSemaphore (i : Nat)
  | inFlightFence (i : Nat)
  | commandPool
  | device
  | debugMessenger
  | surface
  | vkInstance
  deriving DecidableEq, Repr

/-- One event of the shutdown path: the device idle wait or a destroy. -/
inductive CleanupEvent where
  | deviceWaitIdle
  | destroy (r : Resource)
  deriving DecidableEq, Repr

/-- cleanup_swap_chain: destroys every framebuffer, then every image
view, then the swapchain object. -/
def cleanup_swap_chain_trace (n_framebuffers n_image_views : Nat) :
    List CleanupEvent :=
  (List.range n_framebuffers).map (fun i => .destroy (.framebuffer i))
    ++ (List.range n_image_views).map (fun i => .destroy (.imageView i))
    ++ [.destroy .swapchain]

/-- cleanup (lines 1585-1619): cleanup_swap_chain, the per-frame uniform
buffers and memories, descriptor pool, descriptor set layout, index
buffer and memory, vertex buffer and memory, pipeline, pipeline layout,
render pass, the per-frame semaphores and fences, command pool, device,
debug messenger, surface, instance — in that order. -/
def cleanup_trace (n_framebuffers n_image_views : Nat) : List CleanupEvent :=
  cleanup_swap_chain_trace n_framebuffers n_image_views
    ++ (List.range MAX_FRAMES_IN_FLIGHT).flatMap
        (fun i => [.destroy (.uniformBuffer i), .destroy (.uniformMemory i)])
    ++ [.destroy .descriptorPool, .destroy .descriptorSetLayout,
        .destroy .indexBuffer, .destroy .indexMemory,
        .destroy .vertexBuffer, .destroy .vertexMemory,
        .destroy .pipeline, .destroy .pipelineLayout, .destroy .renderPass]
    ++ (List.range MAX_FRAMES_IN_FLIGHT).flatMap
        (fun i => [.destroy (.imageAvailableSemaphore i),
          .destroy (.renderFinishedSemaphore i), .destroy (.inFlightFence i)])
    ++ [.destroy .commandPool, .destroy .device, .destroy .debugMessenger,
        .destroy .surface, .destroy .vkInstance]

/-- The LoopDestroyed arm of run (lines 1650-1653): device_wait_idle
followed by cleanup. -/
def run_close_trace (n_framebuffers n_image_views : Nat) : List CleanupEvent :=
  CleanupEvent.deviceWaitIdle :: cleanup_trace n_framebuffers n_image_views

/-- The qualification test of one memory type in find_memory_type: bit i
of the type filter is set and the property flags are a superset of the
required ones (flags AND properties == properties). -/
def memory_type_matches (type_filter properties i flags : Nat) : Bool :=
  (type_filter &&& 2 ^ i != 0) && (flags &&& properties == properties)

/-- The loop of find_memory_type over memory types numbered from i. -/
def find_memory_type_from (type_filter properties : Nat) :
    Nat → List Nat → Option Nat
  | _, [] => none
  | i, flags :: rest =>
    if memory_type_matches type_filter properties i flags then some i
    else find_memory_type_from type_filter properties (i + 1) rest

/-- find_memory_type: scans memory types 0, 1, ... in order and returns
the first index whose bit is set in type_filter and whose property flags
contain all required properties; the Rust panic on exhaustion is
embedded as none.  memory_types lists the property flags of the first
memory_type_count entries of the device memory properties. -/
def find_memory_type (memory_types : List Nat) (type_filter properties : Nat) :
    Option Nat :=
  find_memory_type_from type_filter properties 0 memory_types

/-- The ash result code ERROR_INITIALIZATION_FAILED and the subset of
VkResult values pick_physical_device can produce. -/
inductive VkResult where
  | ERROR_INITIALIZATION_FAILED
  deriving DecidableEq, Repr

/-- The loop of pick_physical_device: every suitable device overwrites
the accumulator, so the last suitable device wins. -/
def pick_physical_device_loop (suitable : Nat → Bool) :
    Option Nat → List Nat → Option Nat
  | acc, [] => acc
  | acc, d :: rest =>
    pick_physical_device_loop suitable (if suitable d then some d else acc) rest

/-- pick_physical_device: errors with ERROR_INITIALIZATION_FAILED when
the enumerated device list is empty, otherwise runs the loop and errors
likewise when no device was suitable.  Devices are opaque Nat handles;
suitability is the oracle is_device_suitable provides for each. -/
def pick_physical_device (devices : List Nat) (suitable : Nat → Bool) :
    Except VkResult Nat :=
  if devices.length == 0 then .error .ERROR_INITIALIZATION_FAILED
  else
    match pick_physical_device_loop suitable none devices with
    | some d => .ok d
    | none => .error .ERROR_INITIALIZATION_FAILED

/-- What the backend queries inside is_device_suitable return for one
device: the two queue family searches, the extension support check, and
the swapchain support snapshot. -/
structure DeviceQueryEnv where
  graphics_queue_index : Option Nat
  present_queue_index : Option Nat
  extension_support : Bool
  support : SwapchainSupportDetails
  deriving Repr

/-- is_device_suitable: both queue families found, the device extension
present, and both the format list and the present-mode list non-empty. -/
def is_device_suitable (env : DeviceQueryEnv) : Bool :=
  env.graphics_queue_index.isSome && env.present_queue_index.isSome
    && env.extension_support
    && !env.support.formats.isEmpty && !env.support.present_modes.isEmpty

/-! ## Shared helper lemmas -/

/-- A second recreation with the same environment reproduces the same
state: recreate_swap_chain reads only render_pass from the prior state,
and render_pass is preserved. -/
theorem recreate_swap_chain_idem (s : RenderState) (env : SwapChainEnv)
    (s2 : RenderState) (h : recreate_swap_chain s env = some s2) :
    recreate_swap_chain s2 env = some s2 := by
  unfold recreate_swap_chain at h ⊢
  cases hc : create_swap_chain env with
  | none => rw [hc] at h; cases h
  | some v =>
    obtain ⟨sc, images, format, extent⟩ := v
    rw [hc] at h
    simp only [Option.some_inj] at h
    subst h
    rfl

end Vk

namespace Vk

/-- The five resources whose teardown order the shutdown claim names:
command pool, device, debug messenger, surface, instance. -/
def is_late_resource : CleanupEvent → Bool
  | .destroy .commandPool => true
  | .destroy .device => true
  | .destroy .debugMessenger => true
  | .destroy .surface => true
  | .destroy .vkInstance => true
  | _ => false

theorem filter_late_map_eq_nil (f : Nat → Resource)
    (hf : ∀ i, is_late_resource (.destroy (f i)) = false) (l : List Nat) :
    (l.map (fun i => CleanupEvent.destroy (f i))).filter is_late_resource = [] := by
  induction l with
  | nil => rfl
  | cons a l ih => simp [List.filter_cons, hf a, ih]

theorem filter_late_flatMap_eq_nil (g : Nat → List CleanupEvent)
    (hg : ∀ i, (g i).filter is_late_resource = []) (l : List Nat) :
    (l.flatMap g).filter is_late_resource = [] := by
  induction l with
  | nil => rfl
  | cons a l ih => simp [List.flatMap_cons, List.filter_append, hg a, ih]

end Vk

/-! ## Claim C1 -/

/-- C1: the claim says the chosen swapchain image count is
min_image_count + 1 clamped down to max_image_count whenever
max_image_count is nonzero.  The code clamps only when min_image_count
itself exceeds max_image_count, so at min_image_count = 3,
max_image_count = 3 it chooses 4, exceeding the maximum, where the claim
requires min (3 + 1) 3 = 3. -/
theorem image_count_exceeds_max_at_min_eq_max :
    Vk.image_count ⟨3, 3, ⟨800, 600⟩, ⟨1, 1⟩, ⟨4096, 4096⟩, 0⟩ = 4 ∧
    Vk.spec_image_count ⟨3, 3, ⟨800, 600⟩, ⟨1, 1⟩, ⟨4096, 4096⟩, 0⟩ = 3 ∧
    4 > (3 : Nat) := by
  decide

/-! ## Claim C2 -/

/-- C2: when the acquire step reports the swapchain out-of-date,
draw_frame returns without resetting the slot fence, without resetting,
re-recording or submitting the slot command buffer, without presenting,
and without advancing the frame counter; it triggers swapchain
recreation instead. -/
theorem draw_frame_acquire_out_of_date (s : Vk.FrameState)
    (pres : Vk.PresentResult) :
    (∀ i, Vk.Action.resetFence i ∉ (Vk.draw_frame s .outOfDate pres).1) ∧
    (∀ i, Vk.Action.resetCommandBuffer i ∉ (Vk.draw_frame s .outOfDate pres).1) ∧
    (∀ i j, Vk.Action.recordCommandBuffer i j ∉ (Vk.draw_frame s .outOfDate pres).1) ∧
    (∀ i, Vk.Action.submit i ∉ (Vk.draw_frame s .outOfDate pres).1) ∧
    (∀ i, Vk.Action.present i ∉ (Vk.draw_frame s .outOfDate pres).1) ∧
    Vk.Action.recreateSwapChain ∈ (Vk.draw_frame s .outOfDate pres).1 ∧
    (Vk.draw_frame s .outOfDate pres).2.current_frame = s.current_frame := by
  simp [Vk.draw_frame]

/-! ## Claim C3 -/

/-- C3 counterexample: the claim orders the teardown as command pool,
device, surface, debug messenger, instance; but in the shutdown trace
(shown with 3 framebuffers and 3 image views) the surface is destroyed
after the debug messenger, not before it. -/
theorem cleanup_destroys_messenger_before_surface :
    ¬ (Vk.run_close_trace 3 3).indexOf (.destroy .surface) <
        (Vk.run_close_trace 3 3).indexOf (.destroy .debugMessenger) := by
  decide

/-- C3 (amended): on a close signal the teardown first forces full GPU
idle, then destroys resources with the instance-level handles ordered:
command pool, then device, then the debug messenger, then the surface,
then the instance. -/
theorem run_close_teardown_order (nf ni : Nat) :
    (Vk.run_close_trace nf ni).head? = some .deviceWaitIdle ∧
    (Vk.run_close_trace nf ni).filter Vk.is_late_resource =
      [.destroy .commandPool, .destroy .device, .destroy .debugMessenger,
       .destroy .surface, .destroy .vkInstance] := by
  refine ⟨rfl, ?_⟩
  simp only [Vk.run_close_trace, Vk.cleanup_trace, Vk.cleanup_swap_chain_trace,
    List.append_assoc, List.filter_cons, List.filter_append]
  rw [Vk.filter_late_map_eq_nil Vk.Resource.framebuffer (fun i => rfl),
    Vk.filter_late_map_eq_nil Vk.Resource.imageView (fun i => rfl),
    Vk.filter_late_flatMap_eq_nil
      (fun i => [.destroy (.uniformBuffer i), .destroy (.uniformMemory i)])
      (fun i => rfl),
    Vk.filter_late_flatMap_eq_nil
      (fun i => [.destroy (.imageAvailableSemaphore i),
        .destroy (.renderFinishedSemaphore i), .destroy (.inFlightFence i)])
      (fun i => rfl)]
  rfl

/-! ## Claim C4 -/

namespace Vk

/-- A concrete pre-recreation state used to ground the generation-counter
question. -/
def gen_state0 : RenderState :=
  ⟨0, [], 0, ⟨0, 0⟩, [], 7, []⟩

/-- A concrete environment (defined current extent, one sRGB BGRA format,
FIFO only) under which recreation succeeds. -/
def gen_env0 : SwapChainEnv :=
  ⟨⟨⟨2, 0, ⟨800, 600⟩, ⟨1, 1⟩, ⟨4096, 4096⟩, 0⟩, [⟨50, 0⟩], [2]⟩,
    ⟨800, 600⟩, some 0, some 0, 42, [10, 11, 12]⟩

end Vk

/-- C4 counterexample: no projection of the VulkanDetails swapchain state
behaves as a generation counter incremented by one on every successful
recreation; at the concrete state gen_state0 and environment gen_env0 a
second recreation reproduces the state of the first exactly, so any such
counter would have to satisfy g s = g s + 1. -/
theorem no_generation_counter :
    ¬ ∃ g : Vk.RenderState → Nat, ∀ s env s2,
        Vk.recreate_swap_chain s env = some s2 → g s2 = g s + 1 := by
  rintro ⟨g, hg⟩
  obtain ⟨s1, hs1⟩ : ∃ t, Vk.recreate_swap_chain Vk.gen_state0 Vk.gen_env0 = some t :=
    ⟨_, rfl⟩
  have h2 := Vk.recreate_swap_chain_idem _ _ _ hs1
  have e2 := hg _ _ _ h2
  omega

/-- C4 (amended): the swapchain state carries no generation counter and
recreation increments none; the state recreate_swap_chain leaves behind
is determined by the fresh environment query alone (together with the
preserved render pass), so a second recreation with the same environment
reproduces the same state. -/
theorem recreate_swap_chain_no_counter (s : Vk.RenderState)
    (env : Vk.SwapChainEnv) (s2 : Vk.RenderState)
    (h : Vk.recreate_swap_chain s env = some s2) :
    Vk.recreate_swap_chain s2 env = some s2 :=
  Vk.recreate_swap_chain_idem s env s2 h

/-- C4 witness: the amended theorem applied at gen_state0 / gen_env0. -/
theorem recreate_swap_chain_no_counter_witness :
    ∃ s2, Vk.recreate_swap_chain Vk.gen_state0 Vk.gen_env0 = some s2 ∧
      Vk.recreate_swap_chain s2 Vk.gen_env0 = some s2 :=
  ⟨_, rfl, recreate_swap_chain_no_counter Vk.gen_state0 Vk.gen_env0 _ rfl⟩

/-! ## Claim C5 -/

/-- C5: when the surface current extent is defined (width is not the
u32::MAX sentinel) the chosen extent is the current extent verbatim,
regardless of the window size; when it is the sentinel, the chosen
extent is the window extent with each dimension clamped to
[min_image_extent, max_image_extent]. -/
theorem choose_swap_extent_spec (ws : Vk.Extent2D)
    (caps : Vk.SurfaceCapabilitiesKHR) :
    (caps.current_extent.width ≠ Vk.u32MAX →
      Vk.choose_swap_extent ws caps = some caps.current_extent) ∧
    (caps.current_extent.width = Vk.u32MAX →
      caps.min_image_extent.width ≤ caps.max_image_extent.width →
      caps.min_image_extent.height ≤ caps.max_image_extent.height →
      Vk.choose_swap_extent ws caps = some
        ⟨max caps.min_image_extent.width (min ws.width caps.max_image_extent.width),
         max caps.min_image_extent.height
           (min ws.height caps.max_image_extent.height)⟩) := by
  constructor
  · intro h
    simp [Vk.choose_swap_extent, h]
  · intro h hw hh
    simp only [Vk.choose_swap_extent, h, ne_eq, not_true_eq_false, if_false,
      Vk.rust_clamp, if_neg (Nat.not_lt.mpr hw), if_neg (Nat.not_lt.mpr hh)]
    simp only [Option.some.injEq, Vk.Extent2D.mk.injEq]
    constructor
    · split
      · omega
      · split <;> omega
    · split
      · omega
      · split <;> omega

/-- C5 witness: an undefined current extent with window 1920x1080 and
surface bounds 64..1024 clamps to 1024x1024. -/
theorem choose_swap_extent_witness :
    Vk.choose_swap_extent ⟨1920, 1080⟩
      ⟨2, 4, ⟨Vk.u32MAX, 600⟩, ⟨64, 64⟩, ⟨1024, 1024⟩, 0⟩ = some ⟨1024, 1024⟩ := by
  have h := (choose_swap_extent_spec ⟨1920, 1080⟩
    ⟨2, 4, ⟨Vk.u32MAX, 600⟩, ⟨64, 64⟩, ⟨1024, 1024⟩, 0⟩).2 rfl (by decide) (by decide)
  simpa using h

/-! ## Claim C6 -/

/-- C6: for every non-empty surface-format list, if some entry is 8-bit
BGRA sRGB with the sRGB-nonlinear colorspace then
choose_swap_surface_format returns the first such entry (no earlier
entry is preferred); otherwise it returns the first entry of the list. -/
theorem choose_swap_surface_format_spec (formats : List Vk.SurfaceFormatKHR)
    (hne : formats ≠ []) :
    ∃ r, Vk.choose_swap_surface_format formats = some r ∧
      ((∃ f ∈ formats, Vk.is_preferred_format f = true) →
        Vk.is_preferred_format r = true ∧
        ∃ pre post, formats = pre ++ r :: post ∧
          ∀ f ∈ pre, Vk.is_preferred_format f = false) ∧
      ((∀ f ∈ formats, Vk.is_preferred_format f = false) →
        some r = formats.head?) := by
  cases hf : formats.find? Vk.is_preferred_format with
  | some f =>
    have hc : Vk.choose_swap_surface_format formats = some f := by
      unfold Vk.choose_swap_surface_format
      rw [hf]
    refine ⟨f, hc, ?_, ?_⟩
    · intro _
      obtain ⟨hpf, pre, post, heq, hpre⟩ := List.find?_eq_some.mp hf
      exact ⟨hpf, pre, post, heq, fun a ha => by simpa using hpre a ha⟩
    · intro hall
      have h1 := List.find?_some hf
      have h2 := hall f (List.mem_of_find?_eq_some hf)
      simp [h2] at h1
  | none =>
    have hall := List.find?_eq_none.mp hf
    obtain ⟨x, xs, rfl⟩ := List.exists_cons_of_ne_nil hne
    have hc : Vk.choose_swap_surface_format (x :: xs) = some x := by
      unfold Vk.choose_swap_surface_format
      rw [hf]
      rfl
    refine ⟨x, hc, ?_, fun _ => rfl⟩
    intro hex
    obtain ⟨f, hfm, hpf⟩ := hex
    exact absurd hpf (hall f hfm)

/-- C6 witness: with a non-preferred entry first and the preferred BGRA
sRGB entry second, the preferred entry is selected. -/
theorem choose_swap_surface_format_witness :
    Vk.choose_swap_surface_format [⟨44, 0⟩, ⟨50, 0⟩] = some ⟨50, 0⟩ := by
  obtain ⟨r, hr, hpref, -⟩ :=
    choose_swap_surface_format_spec [⟨44, 0⟩, ⟨50, 0⟩] (by decide)
  obtain ⟨hp, pre, post, heq, hpre⟩ := hpref ⟨⟨50, 0⟩, by decide, by decide⟩
  have hmem : r = (⟨44, 0⟩ : Vk.SurfaceFormatKHR) ∨ r = ⟨50, 0⟩ := by
    have hm : r ∈ [(⟨44, 0⟩ : Vk.SurfaceFormatKHR), ⟨50, 0⟩] := by
      rw [heq]
      exact List.mem_append_right _ (List.mem_cons_self _ _)
    simpa using hm
  rcases hmem with rfl | rfl
  · exact absurd hp (by decide)
  · exact hr

/-! ## Claim C7 -/

namespace Vk

/-- Spec-level qualification of memory type i: the index is in range,
bit i of the type filter is set, and the property flags of type i are a
superset of the required property flags (every required bit present). -/
def qualifies (memory_types : List Nat) (type_filter properties i : Nat) : Prop :=
  i < memory_types.length ∧ type_filter.testBit i = true ∧
  ∀ b, properties.testBit b = true → (memory_types.getD i 0).testBit b = true

theorem and_two_pow_ne_zero_iff (n i : Nat) :
    (n &&& 2 ^ i ≠ 0) ↔ n.testBit i = true := by
  rw [Nat.and_two_pow]
  cases h : n.testBit i <;> simp [h, Nat.pow_eq_zero]

theorem and_eq_right_iff_superset (flags properties : Nat) :
    flags &&& properties = properties ↔
      ∀ b, properties.testBit b = true → flags.testBit b = true := by
  constructor
  · intro h b hb
    have hc := congrArg (fun n => n.testBit b) h
    simp only [Nat.testBit_and, hb, Bool.and_true] at hc
    exact hc
  · intro h
    apply Nat.eq_of_testBit_eq
    intro b
    rw [Nat.testBit_and]
    cases hb : properties.testBit b
    · simp
    · simp [h b hb]

/-- The loop test agrees with the spec-level qualification of the flags
it inspects. -/
theorem memory_type_matches_iff (type_filter properties i flags : Nat) :
    memory_type_matches type_filter properties i flags = true ↔
      (type_filter.testBit i = true ∧
        ∀ b, properties.testBit b = true → flags.testBit b = true) := by
  unfold memory_type_matches
  rw [Bool.and_eq_true, bne_iff_ne, beq_iff_eq,
    and_two_pow_ne_zero_iff, and_eq_right_iff_superset]

theorem find_memory_type_from_some (type_filter properties : Nat) :
    ∀ (l : List Nat) (k i : Nat),
      find_memory_type_from type_filter properties k l = some i →
      k ≤ i ∧ i - k < l.length ∧
      memory_type_matches type_filter properties i (l.getD (i - k) 0) = true ∧
      ∀ j, k ≤ j → j < i →
        memory_type_matches type_filter properties j (l.getD (j - k) 0) = false := by
  intro l
  induction l with
  | nil => intro k i h; cases h
  | cons flags rest ih =>
    intro k i h
    unfold find_memory_type_from at h
    by_cases hm : memory_type_matches type_filter properties k flags = true
    · rw [if_pos hm] at h
      obtain rfl := Option.some_inj.mp h
      refine ⟨Nat.le_refl _, by simp, by simpa using hm, ?_⟩
      intro j h1 h2
      omega
    · rw [if_neg hm] at h
      obtain ⟨h1, h2, h3, h4⟩ := ih (k + 1) i h
      refine ⟨by omega, by simp only [List.length_cons]; omega, ?_, ?_⟩
      · have hik : i - k = (i - (k + 1)) + 1 := by omega
        rw [hik, List.getD_cons_succ]
        exact h3
      · intro j hj1 hj2
        rcases Nat.eq_or_lt_of_le hj1 with rfl | hlt
        · simpa using Bool.not_eq_true _ ▸ hm
        · have hjk : j - k = (j - (k + 1)) + 1 := by omega
          rw [hjk, List.getD_cons_succ]
          exact h4 j hlt hj2

theorem find_memory_type_from_none (type_filter properties : Nat) :
    ∀ (l : List Nat) (k : Nat),
      find_memory_type_from type_filter properties k l = none →
      ∀ j, k ≤ j → j - k < l.length →
        memory_type_matches type_filter properties j (l.getD (j - k) 0) = false := by
  intro l
  induction l with
  | nil =>
    intro k _ j _ hj
    simp at hj
  | cons flags rest ih =>
    intro k h j hj1 hj2
    unfold find_memory_type_from at h
    by_cases hm : memory_type_matches type_filter properties k flags = true
    · rw [if_pos hm] at h; cases h
    · rw [if_neg hm] at h
      rcases Nat.eq_or_lt_of_le hj1 with rfl | hlt
      · simpa using Bool.not_eq_true _ ▸ hm
      · have hjk : j - k = (j - (k + 1)) + 1 := by omega
        rw [hjk, List.getD_cons_succ]
        exact ih (k + 1) h j hlt (by simp only [List.length_cons] at hj2; omega)

end Vk

/-- C7: find_memory_type returns the smallest index i below the memory
type count whose bit is set in the type filter and whose property flags
contain every required property flag; and it returns none — the
embedding of the Rust panic — exactly when no index qualifies. -/
theorem find_memory_type_spec (memory_types : List Nat)
    (type_filter properties : Nat) :
    (∀ i, Vk.find_memory_type memory_types type_filter properties = some i →
      Vk.qualifies memory_types type_filter properties i ∧
      ∀ j < i, ¬ Vk.qualifies memory_types type_filter properties j) ∧
    (Vk.find_memory_type memory_types type_filter properties = none ↔
      ∀ i, ¬ Vk.qualifies memory_types type_filter properties i) := by
  constructor
  · intro i h
    obtain ⟨-, h2, h3, h4⟩ :=
      Vk.find_memory_type_from_some type_filter properties memory_types 0 i h
    rw [Nat.sub_zero] at h2 h3
    constructor
    · exact ⟨h2, (Vk.memory_type_matches_iff _ _ _ _).mp h3⟩
    · intro j hj hq
      have hf := h4 j (Nat.zero_le j) hj
      rw [Nat.sub_zero] at hf
      have := (Vk.memory_type_matches_iff type_filter properties j
        (memory_types.getD j 0)).mpr ⟨hq.2.1, hq.2.2⟩
      rw [hf] at this
      cases this
  · constructor
    · intro h i hq
      have hf := Vk.find_memory_type_from_none type_filter properties
        memory_types 0 h i (Nat.zero_le i) (by rw [Nat.sub_zero]; exact hq.1)
      rw [Nat.sub_zero] at hf
      have := (Vk.memory_type_matches_iff type_filter properties i
        (memory_types.getD i 0)).mpr ⟨hq.2.1, hq.2.2⟩
      rw [hf] at this
      cases this
    · intro h
      cases hf : Vk.find_memory_type memory_types type_filter properties with
      | none => rfl
      | some i =>
        obtain ⟨-, h2, h3, -⟩ :=
          Vk.find_memory_type_from_some type_filter properties memory_types 0 i hf
        rw [Nat.sub_zero] at h2 h3
        exact absurd ⟨h2, (Vk.memory_type_matches_iff _ _ _ _).mp h3⟩ (h i)

/-- C7 witness: with property flag sets [1, 6], filter 2 and required
properties 2, index 1 is the smallest qualifying memory type. -/
theorem find_memory_type_witness :
    Vk.qualifies [1, 6] 2 2 1 ∧ ∀ j < 1, ¬ Vk.qualifies [1, 6] 2 2 j :=
  (find_memory_type_spec [1, 6] 2 2).1 1 rfl

/-! ## Claim C8 -/

namespace Vk

/-- Whatever create_swap_chain returns, its image list is exactly the
one freshly fetched from the backend for the new swapchain. -/
theorem create_swap_chain_images (env : SwapChainEnv)
    (v : Nat × List Nat × Nat × Extent2D) (h : create_swap_chain env = some v) :
    v.2.1 = env.swap_chain_images := by
  unfold create_swap_chain at h
  split at h
  · cases h
  · split at h
    · cases h
    · split at h
      · simp only [Option.some_inj] at h
        subst h
        rfl
      · cases h

end Vk

/-- C8: after every successful swapchain recreation the image views and
framebuffers are rebuilt in the same call, one view per image and one
framebuffer per view, so all three collections have equal length, and
the images are exactly the freshly queried ones (not the prior state's). -/
theorem recreate_swap_chain_atomic (s : Vk.RenderState) (env : Vk.SwapChainEnv)
    (s2 : Vk.RenderState) (h : Vk.recreate_swap_chain s env = some s2) :
    s2.swap_chain_image_views.length = s2.swap_chain_images.length ∧
    s2.swap_chain_framebuffers.length = s2.swap_chain_images.length ∧
    s2.swap_chain_images = env.swap_chain_images := by
  unfold Vk.recreate_swap_chain at h
  cases hc : Vk.create_swap_chain env with
  | none => rw [hc] at h; cases h
  | some v =>
    obtain ⟨sc, images, format, extent⟩ := v
    rw [hc] at h
    simp only [Option.some_inj] at h
    subst h
    refine ⟨?_, ?_, ?_⟩
    · simp [Vk.create_image_views]
    · simp [Vk.create_framebuffers, Vk.create_image_views]
    · exact Vk.create_swap_chain_images env (sc, images, format, extent) hc

/-- C8 witness: the atomicity theorem applied at the concrete state
gen_state0 and environment gen_env0. -/
theorem recreate_swap_chain_atomic_witness :
    ∃ s2, Vk.recreate_swap_chain Vk.gen_state0 Vk.gen_env0 = some s2 ∧
      s2.swap_chain_image_views.length = s2.swap_chain_images.length ∧
      s2.swap_chain_framebuffers.length = s2.swap_chain_images.length ∧
      s2.swap_chain_images = Vk.gen_env0.swap_chain_images :=
  ⟨_, rfl, recreate_swap_chain_atomic Vk.gen_state0 Vk.gen_env0 _ rfl⟩

/-! ## Claim C9 -/

namespace Vk

/-- The accumulator loop of pick_physical_device keeps the last suitable
device seen so far, falling back to the incoming accumulator. -/
theorem pick_physical_device_loop_eq (suitable : Nat → Bool) :
    ∀ (l : List Nat) (acc : Option Nat),
      pick_physical_device_loop suitable acc l =
        ((l.filter suitable).getLast?).or acc := by
  intro l
  induction l with
  | nil => intro acc; rfl
  | cons d rest ih =>
    intro acc
    show pick_physical_device_loop suitable
      (if suitable d then some d else acc) rest = _
    rw [ih]
    cases hd : suitable d with
    | true =>
      simp only [List.filter_cons, hd, if_true]
      cases hg : (rest.filter suitable).getLast? with
      | some x =>
        have hne : rest.filter suitable ≠ [] := by
          intro he
          rw [he] at hg
          cases hg
        obtain ⟨y, ys, hys⟩ := List.exists_cons_of_ne_nil hne
        rw [hys] at hg
        rw [hys, List.getLast?_cons_cons, hg]
        rfl
      | none =>
        have he : rest.filter suitable = [] := List.getLast?_eq_none_iff.mp hg
        rw [he]
        rfl
    | false =>
      simp [List.filter_cons, hd]

end Vk

/-- C9: pick_physical_device selects the last suitable device in
enumeration order (each suitable device overwrites the previous pick),
and returns ERROR_INITIALIZATION_FAILED exactly when the enumerated
device list is empty or contains no suitable device. -/
theorem pick_physical_device_spec (devices : List Nat) (suitable : Nat → Bool) :
    (∀ d, Vk.pick_physical_device devices suitable = .ok d →
      (devices.filter suitable).getLast? = some d) ∧
    (Vk.pick_physical_device devices suitable =
        .error .ERROR_INITIALIZATION_FAILED ↔
      devices = [] ∨ ∀ d ∈ devices, suitable d = false) := by
  cases devices with
  | nil =>
    constructor
    · intro d h
      cases h
    · exact ⟨fun _ => Or.inl rfl, fun _ => rfl⟩
  | cons x xs =>
    have hpick : Vk.pick_physical_device (x :: xs) suitable =
        match ((x :: xs).filter suitable).getLast? with
        | some d => .ok d
        | none => .error .ERROR_INITIALIZATION_FAILED := by
      unfold Vk.pick_physical_device
      rw [if_neg (by simp), Vk.pick_physical_device_loop_eq, Option.or_none]
    rw [hpick]
    constructor
    · intro d h
      cases hg : ((x :: xs).filter suitable).getLast? with
      | some y =>
        rw [hg] at h
        injection h with h2
        rw [h2]
      | none =>
        rw [hg] at h
        cases h
    · constructor
      · intro h
        cases hg : ((x :: xs).filter suitable).getLast? with
        | some y =>
          rw [hg] at h
          cases h
        | none =>
          right
          intro d hd
          have he : (x :: xs).filter suitable = [] :=
            List.getLast?_eq_none_iff.mp hg
          have := List.filter_eq_nil_iff.mp he d hd
          simpa using this
      · intro h
        rcases h with h | h
        · cases h
        · have he : (x :: xs).filter suitable = [] :=
            List.filter_eq_nil_iff.mpr (fun a ha => by simp [h a ha])
          rw [he]
          rfl

/-- C9 witness: among devices [10, 20, 30] with 10 unsuitable, both 20
and 30 are suitable and the last one, 30, is picked. -/
theorem pick_physical_device_witness :
    ([10, 20, 30].filter (fun d => d != 10)).getLast? = some 30 :=
  (pick_physical_device_spec [10, 20, 30] (fun d => d != 10)).1 30 rfl

/-! ## Claim C10 -/

namespace Vk

/-- A concrete device-query outcome under which is_device_suitable
succeeds: both queue families found, the extension present, one format
and one present mode. -/
def suitable_env0 : DeviceQueryEnv :=
  ⟨some 0, some 0, true,
    ⟨⟨2, 3, ⟨800, 600⟩, ⟨1, 1⟩, ⟨4096, 4096⟩, 0⟩, [⟨50, 0⟩], [2]⟩⟩

end Vk

/-- C10: choose_swap_surface_format is partial at its interface — on the
empty format list it panics (embedded as none, from indexing
formats[0]); under the precondition that is_device_suitable succeeded,
which requires a non-empty format list, it always returns an element of
its input list. -/
theorem choose_swap_surface_format_total (env : Vk.DeviceQueryEnv) :
    Vk.choose_swap_surface_format [] = none ∧
    (Vk.is_device_suitable env = true →
      ∃ r, Vk.choose_swap_surface_format env.support.formats = some r ∧
        r ∈ env.support.formats) := by
  constructor
  · rfl
  · intro h
    have hne : env.support.formats ≠ [] := by
      simp only [Vk.is_device_suitable, Bool.and_eq_true, Bool.not_eq_true',
        List.isEmpty_eq_false] at h
      exact h.1.2
    unfold Vk.choose_swap_surface_format
    cases hf : env.support.formats.find? Vk.is_preferred_format with
    | some f => exact ⟨f, rfl, List.mem_of_find?_eq_some hf⟩
    | none =>
      obtain ⟨x, xs, hxs⟩ := List.exists_cons_of_ne_nil hne
      refine ⟨x, ?_, ?_⟩
      · rw [hxs]
        rfl
      · rw [hxs]
        exact List.mem_cons_self _ _

/-- C10 witness: the totality theorem applied at the concrete suitable
device-query outcome suitable_env0. -/
theorem choose_swap_surface_format_total_witness :
    ∃ r, Vk.choose_swap_surface_format Vk.suitable_env0.support.formats = some r ∧
      r ∈ Vk.suitable_env0.support.formats :=
  (choose_swap_surface_format_total Vk.suitable_env0).2 rfl
